import Mathlib

/-!
Shallow embedding of the printing layout logic of
`src/client/src/components/printing/printingDialog.tsx`, together with
theorems checking the layout specification against it.

Lengths are rationals (millimetres); grid counts are integers.  Every
settings field is optional, read through the JavaScript `x || default`
fallback exactly as the component does.
-/

/-- Per-edge lengths in millimetres, as in the source's margin objects. -/
structure MarginRec where
  top : ℚ
  bottom : ℚ
  left : ℚ
  right : ℚ
deriving DecidableEq

/-- Inter-cell spacing in millimetres. -/
structure SpacingRec where
  horizontal : ℚ
  vertical : ℚ
deriving DecidableEq

/-- Width/height pair in millimetres (interface `PaperDimensions`). -/
structure SizeRec where
  width : ℚ
  height : ℚ
deriving DecidableEq

/-- The `PrintSettings` record.  Every field may be absent; the component
reads each one with a `printSettings?.field || default` fallback. -/
structure PrintSettings where
  margin : Option MarginRec := none
  printerMargin : Option MarginRec := none
  spacing : Option SpacingRec := none
  columns : Option ℤ := none
  rows : Option ℤ := none
  skipItems : Option ℤ := none
  itemCopies : Option ℤ := none
  paperSize : Option String := none
  customPaperSize : Option SizeRec := none
  borderShowMode : Option String := none
deriving DecidableEq

/-- JavaScript `v || d` for an optional number: `undefined` and `0` are both
falsy, so both fall back to the default. -/
def jsOrZ (v : Option ℤ) (d : ℤ) : ℤ :=
  match v with
  | none => d
  | some z => if z = 0 then d else z

/-- JavaScript `v || d` for an optional string: `undefined` and the empty
string are falsy. -/
def jsOrStr (v : Option String) (d : String) : String :=
  match v with
  | none => d
  | some s => if s = "" then d else s

/-- Line 81: `printSettings?.margin || { top: 10, bottom: 10, left: 10, right: 10 }`. -/
def margin (s : PrintSettings) : MarginRec :=
  s.margin.getD ⟨10, 10, 10, 10⟩

/-- Line 82: `printSettings?.printerMargin || { top: 5, bottom: 5, left: 5, right: 5 }`. -/
def printerMargin (s : PrintSettings) : MarginRec :=
  s.printerMargin.getD ⟨5, 5, 5, 5⟩

/-- Line 83: `printSettings?.spacing || { horizontal: 0, vertical: 0 }`. -/
def spacing (s : PrintSettings) : SpacingRec :=
  s.spacing.getD ⟨0, 0⟩

/-- Line 84: `printSettings?.columns || 3`. -/
def paperColumns (s : PrintSettings) : ℤ :=
  jsOrZ s.columns 3

/-- Line 85: `printSettings?.rows || 8`. -/
def paperRows (s : PrintSettings) : ℤ :=
  jsOrZ s.rows 8

/-- Line 86: `printSettings?.skipItems || 0`. -/
def skipItems (s : PrintSettings) : ℤ :=
  jsOrZ s.skipItems 0

/-- Line 87: `printSettings?.itemCopies || 1`. -/
def itemCopies (s : PrintSettings) : ℤ :=
  jsOrZ s.itemCopies 1

/-- Line 88: `printSettings?.paperSize || "A4"`. -/
def paperSize (s : PrintSettings) : String :=
  jsOrStr s.paperSize ("A4")

/-- Line 89: `printSettings?.customPaperSize || { width: 210, height: 297 }`. -/
def customPaperSize (s : PrintSettings) : SizeRec :=
  s.customPaperSize.getD ⟨210, 297⟩

/-- Line 90: `printSettings?.borderShowMode || "grid"`. -/
def borderShowMode (s : PrintSettings) : String :=
  jsOrStr s.borderShowMode ("grid")

/-- The `paperDimensions` lookup table.  Indexing a JavaScript object with an
unknown key yields `undefined`, modelled by `none`. -/
def paperDimensions (key : String) : Option SizeRec :=
  if key = "A3" then some ⟨297, 420⟩
  else if key = "A4" then some ⟨210, 297⟩
  else if key = "A5" then some ⟨148, 210⟩
  else if key = "Letter" then some ⟨216, 279⟩
  else if key = "Legal" then some ⟨216, 356⟩
  else if key = "Tabloid" then some ⟨279, 432⟩
  else none

/-- Line 92: `paperSize === "custom" ? customPaperSize.width :
paperDimensions[paperSize].width`.  Reading `.width` of `undefined` throws,
so an unknown preset gives `none`. -/
def paperWidth (s : PrintSettings) : Option ℚ :=
  if paperSize s = "custom" then some (customPaperSize s).width
  else (paperDimensions (paperSize s)).map SizeRec.width

/-- Line 93, as `paperWidth` but for the height. -/
def paperHeight (s : PrintSettings) : Option ℚ :=
  if paperSize s = "custom" then some (customPaperSize s).height
  else (paperDimensions (paperSize s)).map SizeRec.height

/-- Line 97: `(paperWidth - margin.left - margin.right - spacing.horizontal)
/ paperColumns - spacing.horizontal`.  The spacing is subtracted both before
and after the division, exactly as in the source. -/
def itemWidth (s : PrintSettings) (pw : ℚ) : ℚ :=
  (pw - (margin s).left - (margin s).right - (spacing s).horizontal)
    / (paperColumns s : ℚ) - (spacing s).horizontal

/-- Line 98, vertical counterpart of `itemWidth`. -/
def itemHeight (s : PrintSettings) (ph : ℚ) : ℚ :=
  (ph - (margin s).top - (margin s).bottom - (spacing s).vertical)
    / (paperRows s : ℚ) - (spacing s).vertical

/-- Number of iterations of the loop `for (i = 0; i < len / c; i += 1)`:
the ceiling of `len / c` for positive `c`, and zero when `c` is negative
(the loop bound is then non-positive). -/
def chunkCount (len : ℕ) (c : ℤ) : ℕ :=
  if c ≤ 0 then 0 else (len + c.toNat - 1) / c.toNat

/-- The chunking loops of lines 110-118: iteration `i` pushes
`xs.slice(i * c, (i + 1) * c)`. -/
def chunkSlices (xs : List α) (c : ℤ) : List (List α) :=
  (List.range (chunkCount xs.length c)).map fun i =>
    (xs.drop (i * c.toNat)).take c.toNat

/-- Lines 103-108: `skipItems` leading empty placeholders (the `<></>`
fragments, modelled as `none`) followed by each item repeated `itemCopies`
times.  A negative repeat count pushes nothing; a negative `skipItems` makes
`Array(skipItems)` throw, which is handled in `layout`. -/
def itemsIncludingSkipped (skip copies : ℤ) (items : List α) : List (Option α) :=
  List.replicate skip.toNat (none : Option α)
    ++ items.flatMap fun it => List.replicate copies.toNat (some it)

/-- One rendered grid cell (the `div` produced per `td` at lines 124-140):
its occupant, the nominal width/height, the four printer-compensation
paddings and the border style string. -/
structure Cell (α : Type) where
  occupant : Option α
  width : ℚ
  height : ℚ
  padLeft : ℚ
  padRight : ℚ
  padTop : ℚ
  padBottom : ℚ
  border : String
deriving DecidableEq

/-- One printed page: physical size and the row-major grid of cells. -/
structure Page (α : Type) where
  width : ℚ
  height : ℚ
  rows : List (List (Cell α))
deriving DecidableEq

/-- The cell emitted for grid position `(rowIdx, colIdx)` of a page,
mirroring the style object of lines 127-137. -/
def mkCell (s : PrintSettings) (pw ph : ℚ) (rowIdx colIdx : ℕ) (occ : Option α) :
    Cell α where
  occupant := occ
  width := itemWidth s pw
  height := itemHeight s ph
  padLeft :=
    if colIdx = 0 then max ((printerMargin s).left - (margin s).left) 0 else 0
  padRight :=
    if (colIdx : ℤ) = paperColumns s - 1 then
      max ((printerMargin s).right - (margin s).right) 0
    else 0
  padTop :=
    if rowIdx = 0 then max ((printerMargin s).top - (margin s).top) 0 else 0
  padBottom :=
    if (rowIdx : ℤ) = paperRows s - 1 then
      max ((printerMargin s).bottom - (margin s).bottom) 0
    else 0
  border := if borderShowMode s = "grid" then "1px solid #000" else "none"

/-- One page assembled from a block of rows (the `pages.map` body, lines
121-180): each row is rendered with its index within the page, each cell
with its column index within the row. -/
def mkPage (s : PrintSettings) (pw ph : ℚ) (block : List (List (Option α))) :
    Page α where
  width := pw
  height := ph
  rows := block.enum.map fun r => r.2.enum.map fun c => mkCell s pw ph r.1 c.1 c.2

/-- The full page construction pipeline for already-resolved paper
dimensions: expand the items, chunk into rows of `paperColumns`, chunk the
rows into pages of `paperRows`, and render each block. -/
def buildPages (s : PrintSettings) (pw ph : ℚ) (items : List α) : List (Page α) :=
  let expanded := itemsIncludingSkipped (skipItems s) (itemCopies s) items
  let rowsOfItems := chunkSlices expanded (paperColumns s)
  (chunkSlices rowsOfItems (paperRows s)).map fun b => mkPage s pw ph b

/-- The ways the component's layout computation can throw: indexing an
unknown `paperDimensions` key (line 92) and `Array(skipItems)` with a
negative count (line 103). -/
inductive LayoutError where
  | unknownPaperSize
  | negativeSkipItems
deriving DecidableEq

/-- The layout computation of lines 81-180 as one fallible function from a
settings record and the item list to the list of pages. -/
def layout (s : PrintSettings) (items : List α) :
    Except LayoutError (List (Page α)) :=
  match paperWidth s, paperHeight s with
  | some pw, some ph =>
      if skipItems s < 0 then Except.error LayoutError.negativeSkipItems
      else Except.ok (buildPages s pw ph items)
  | _, _ => Except.error LayoutError.unknownPaperSize

/-- All cells of all pages, in row-major, page-sequential order. -/
def flattenCells (pgs : List (Page α)) : List (Cell α) :=
  (pgs.map fun pg => pg.rows.flatten).flatten

/-- The cell at page `p`, row `r`, column `c` of a layout result, if any. -/
def cellAt (e : Except LayoutError (List (Page α))) (p r c : ℕ) :
    Option (Cell α) :=
  match e with
  | Except.error _ => none
  | Except.ok pgs => do
      let pg ← pgs[p]?
      let row ← pg.rows[r]?
      row[c]?

/-- A settings record with every absent field filled in with its documented
default value; present fields are kept unchanged. -/
def withDefaults (s : PrintSettings) : PrintSettings where
  margin := some (s.margin.getD ⟨10, 10, 10, 10⟩)
  printerMargin := some (s.printerMargin.getD ⟨5, 5, 5, 5⟩)
  spacing := some (s.spacing.getD ⟨0, 0⟩)
  columns := some (s.columns.getD 3)
  rows := some (s.rows.getD 8)
  skipItems := some (s.skipItems.getD 0)
  itemCopies := some (s.itemCopies.getD 1)
  paperSize := some (s.paperSize.getD ("A4"))
  customPaperSize := some (s.customPaperSize.getD ⟨210, 297⟩)
  borderShowMode := some (s.borderShowMode.getD ("grid"))

/-- A heap of settings records addressed by object reference, modelling
JavaScript object identity for the dialog's event handlers. -/
def SettingsHeap : Type := ℕ → PrintSettings

/-- The `skipItems` slider `onChange` handler (lines 264-267): it assigns
`printSettings.skipItems = value` through the received object reference and
then calls `setPrintSettings(printSettings)` with that same reference.  The
result is the heap after the handler together with the reference passed to
`setPrintSettings`. -/
def skipItemsSliderOnChange (h : SettingsHeap) (r : ℕ) (value : ℤ) :
    SettingsHeap × ℕ :=
  (fun x => if x = r then { h r with skipItems := some value } else h x, r)

/-- Example settings with `columns = 0` and `rows = 0`. -/
def cfgZeroColsRows : PrintSettings :=
  { columns := some 0, rows := some 0 }

/-- Example settings whose left/right margins exceed the A4 paper width, so
the computed cell width is negative. -/
def cfgNegWidth : PrintSettings :=
  { margin := some ⟨10, 10, 110, 110⟩ }

/-- Example settings whose left/right margins make the computed cell width
exactly zero. -/
def cfgZeroWidth : PrintSettings :=
  { margin := some ⟨10, 10, 105, 105⟩ }

/-- The cell-dimension example of the spec: A4 paper, 10 mm margins, 2 mm
horizontal spacing, 3 columns. -/
def cfgSpacingExample : PrintSettings :=
  { margin := some ⟨10, 10, 10, 10⟩, spacing := some ⟨2, 0⟩, columns := some 3 }

/-- One-column, two-row settings with zero margins and 5 mm printer
margins; with a single item, its only page has one row. -/
def cfgShortPage : PrintSettings :=
  { margin := some ⟨0, 0, 0, 0⟩, printerMargin := some ⟨5, 5, 5, 5⟩,
    columns := some 1, rows := some 2 }

/-- Settings naming a paper preset absent from `paperDimensions`. -/
def cfgUnknownPaper : PrintSettings :=
  { paperSize := some ("B5") }

/-- Settings using a custom paper size of 100 mm by 150 mm. -/
def cfgCustomPaper : PrintSettings :=
  { paperSize := some ("custom"), customPaperSize := some ⟨100, 150⟩ }

/-- Settings naming the Letter preset. -/
def cfgLetterPaper : PrintSettings :=
  { paperSize := some ("Letter") }

/-- Settings with a negative `itemCopies` value. -/
def cfgNegCopies : PrintSettings :=
  { itemCopies := some (-1) }

/-- A settings heap whose every reference holds the all-absent record. -/
def emptyHeap : SettingsHeap := fun _ => {}

/-! ### Chunking lemmas -/

theorem chunkCount_zero (c : ℤ) : chunkCount 0 c = 0 := by
  unfold chunkCount
  split
  · rfl
  · next h =>
    apply Nat.div_eq_of_lt
    omega

theorem chunkCount_eq_div {c : ℤ} (hc : 1 ≤ c) (len : ℕ) :
    chunkCount len c = (len + c.toNat - 1) / c.toNat := by
  unfold chunkCount
  rw [if_neg (by omega)]

theorem chunkCount_succ {c : ℤ} (hc : 1 ≤ c) {len : ℕ} (hlen : 1 ≤ len) :
    chunkCount len c = chunkCount (len - c.toNat) c + 1 := by
  have hn : 1 ≤ c.toNat := by omega
  rw [chunkCount_eq_div hc, chunkCount_eq_div hc]
  rcases le_or_lt len c.toNat with h | h
  · have h1 : len - c.toNat = 0 := by omega
    rw [h1]
    have h2 : (0 + c.toNat - 1) / c.toNat = 0 := Nat.div_eq_of_lt (by omega)
    rw [h2]
    have h3 : len + c.toNat - 1 = (len - 1) + c.toNat := by omega
    rw [h3, Nat.add_div_right _ (by omega)]
    have h4 : (len - 1) / c.toNat = 0 := Nat.div_eq_of_lt (by omega)
    rw [h4]
  · have h2 : len - c.toNat + c.toNat - 1 = len - 1 := by omega
    rw [h2]
    have h3 : len + c.toNat - 1 = (len - 1) + c.toNat := by omega
    rw [h3, Nat.add_div_right _ (by omega)]

theorem chunkSlices_nil (c : ℤ) : chunkSlices ([] : List α) c = [] := by
  simp [chunkSlices, chunkCount_zero]

theorem chunkSlices_eq_cons {c : ℤ} (hc : 1 ≤ c) {xs : List α} (hxs : xs ≠ []) :
    chunkSlices xs c
      = xs.take c.toNat :: chunkSlices (xs.drop c.toNat) c := by
  have hlen : 1 ≤ xs.length := List.length_pos.mpr hxs
  unfold chunkSlices
  rw [List.length_drop, chunkCount_succ hc hlen, List.range_succ_eq_map,
    List.map_cons, List.map_map]
  refine congrArg₂ List.cons (by simp) ?_
  refine List.map_congr_left fun i _ => ?_
  simp only [Function.comp_apply, List.drop_drop]
  congr 2
  rw [Nat.succ_mul]
  ring

theorem chunkSlices_flatten {c : ℤ} (hc : 1 ≤ c) (xs : List α) :
    (chunkSlices xs c).flatten = xs := by
  have hn : 1 ≤ c.toNat := by omega
  suffices h : ∀ (n : ℕ) (ys : List α), ys.length ≤ n →
      (chunkSlices ys c).flatten = ys from h xs.length xs le_rfl
  intro n
  induction n with
  | zero =>
    intro ys hys
    have : ys = [] := by
      cases ys
      · rfl
      · simp at hys
    subst this
    simp [chunkSlices_nil]
  | succ n ih =>
    intro ys hys
    rcases eq_or_ne ys [] with rfl | hne
    · simp [chunkSlices_nil]
    · have hlen : 1 ≤ ys.length := List.length_pos.mpr hne
      rw [chunkSlices_eq_cons hc hne, List.flatten_cons,
        ih (ys.drop c.toNat) (by rw [List.length_drop]; omega)]
      exact List.take_append_drop _ ys

theorem chunkSlices_length {c : ℤ} (hc : 1 ≤ c) (xs : List α) :
    (chunkSlices xs c).length = (xs.length + c.toNat - 1) / c.toNat := by
  simp [chunkSlices, chunkCount_eq_div hc]

theorem chunkSlices_mem_length_le {c : ℤ} {xs row : List α}
    (h : row ∈ chunkSlices xs c) : row.length ≤ c.toNat := by
  simp only [chunkSlices, List.mem_map, List.mem_range] at h
  obtain ⟨i, _, rfl⟩ := h
  simp [List.length_take]

theorem dropLast_range (n : ℕ) : (List.range n).dropLast = List.range (n - 1) := by
  cases n with
  | zero => rfl
  | succ n => rw [List.range_succ, List.dropLast_concat, Nat.add_sub_cancel]

theorem chunkSlices_dropLast_length {c : ℤ} (hc : 1 ≤ c) {xs row : List α}
    (h : row ∈ (chunkSlices xs c).dropLast) : row.length = c.toNat := by
  have hn : 1 ≤ c.toNat := by omega
  unfold chunkSlices at h
  rw [← List.map_dropLast, dropLast_range] at h
  simp only [List.mem_map, List.mem_range] at h
  obtain ⟨i, hi, rfl⟩ := h
  have hcount : i + 2 ≤ chunkCount xs.length c := by omega
  rw [chunkCount_eq_div hc] at hcount
  have hmul : (i + 2) * c.toNat ≤ xs.length + c.toNat - 1 :=
    (Nat.le_div_iff_mul_le (by omega)).mp hcount
  have e1 : (i + 2) * c.toNat = i * c.toNat + 2 * c.toNat := by ring
  have hlen : i * c.toNat + c.toNat ≤ xs.length := by omega
  simp only [List.length_take, List.length_drop]
  omega

/-! ### Layout structure lemmas -/

theorem layout_ok_inv {s : PrintSettings} {items : List α} {pgs : List (Page α)}
    (h : layout s items = Except.ok pgs) :
    ∃ pw ph, paperWidth s = some pw ∧ paperHeight s = some ph
      ∧ 0 ≤ skipItems s ∧ pgs = buildPages s pw ph items := by
  unfold layout at h
  split at h
  · next pw ph hw hh =>
    split at h
    · exact absurd h (by simp)
    · next hskip =>
      exact ⟨pw, ph, hw, hh, by omega, by injection h with h2; exact h2.symm⟩
  · exact absurd h (by simp)

theorem mkPage_occupants (s : PrintSettings) (pw ph : ℚ)
    (block : List (List (Option α))) :
    ((mkPage s pw ph block).rows.flatten).map (fun cl => cl.occupant)
      = block.flatten := by
  unfold mkPage
  rw [List.map_flatten, List.map_map]
  congr 1
  have : ∀ r : ℕ × List (Option α),
      (List.map (fun cl => cl.occupant) ∘ fun r : ℕ × List (Option α) =>
          r.2.enum.map fun c => mkCell s pw ph r.1 c.1 c.2) r = r.2 := by
    intro r
    simp only [Function.comp_apply, List.map_map]
    have : ((fun cl : Cell α => cl.occupant) ∘ fun c : ℕ × Option α =>
        mkCell s pw ph r.1 c.1 c.2) = Prod.snd := by
      funext c
      rfl
    rw [this, List.enum_map_snd]
  rw [List.map_congr_left fun r _ => this r]
  exact List.enum_map_snd block

theorem flattenCells_buildPages (s : PrintSettings) (pw ph : ℚ) (items : List α)
    (hcols : 1 ≤ paperColumns s) (hrows : 1 ≤ paperRows s) :
    (flattenCells (buildPages s pw ph items)).map (fun cl => cl.occupant)
      = itemsIncludingSkipped (skipItems s) (itemCopies s) items := by
  simp only [flattenCells, buildPages, List.map_flatten, List.map_map,
    Function.comp_def]
  have hpt : ∀ b : List (List (Option α)),
      (List.map (List.map fun cl => cl.occupant) (mkPage s pw ph b).rows).flatten
        = b.flatten := by
    intro b
    rw [← List.map_flatten]
    exact mkPage_occupants s pw ph b
  rw [List.map_congr_left fun b _ => hpt b]
  rw [← List.flatten_flatten, chunkSlices_flatten hrows, chunkSlices_flatten hcols]

theorem countP_isSome_replicate_none (n : ℕ) :
    (List.replicate n (none : Option α)).countP (fun o => o.isSome) = 0 := by
  simp [List.countP_replicate]

theorem countP_isSome_expand (skip copies : ℤ) (items : List α) :
    (itemsIncludingSkipped skip copies items).countP (fun o => o.isSome)
      = items.length * copies.toNat := by
  unfold itemsIncludingSkipped
  rw [List.countP_append, countP_isSome_replicate_none, Nat.zero_add]
  induction items with
  | nil => simp
  | cons it rest ih =>
    rw [List.flatMap_cons, List.countP_append, ih, List.countP_replicate]
    simp [Nat.succ_mul, Nat.add_comm]

/-! ### Settings congruence and defaults -/

theorem layout_congr {s₁ s₂ : PrintSettings} (items : List α)
    (h1 : margin s₁ = margin s₂) (h2 : printerMargin s₁ = printerMargin s₂)
    (h3 : spacing s₁ = spacing s₂) (h4 : paperColumns s₁ = paperColumns s₂)
    (h5 : paperRows s₁ = paperRows s₂) (h6 : skipItems s₁ = skipItems s₂)
    (h7 : itemCopies s₁ = itemCopies s₂) (h8 : paperSize s₁ = paperSize s₂)
    (h9 : customPaperSize s₁ = customPaperSize s₂)
    (h10 : borderShowMode s₁ = borderShowMode s₂) :
    layout s₁ items = layout s₂ items := by
  unfold layout buildPages mkPage mkCell itemWidth itemHeight paperWidth
    paperHeight itemsIncludingSkipped
  simp only [h1, h2, h3, h4, h5, h6, h7, h8, h9, h10]

theorem margin_withDefaults (s : PrintSettings) :
    margin (withDefaults s) = margin s := by
  cases h : s.margin <;> simp [margin, withDefaults, h]

theorem printerMargin_withDefaults (s : PrintSettings) :
    printerMargin (withDefaults s) = printerMargin s := by
  cases h : s.printerMargin <;> simp [printerMargin, withDefaults, h]

theorem spacing_withDefaults (s : PrintSettings) :
    spacing (withDefaults s) = spacing s := by
  cases h : s.spacing <;> simp [spacing, withDefaults, h]

theorem paperColumns_withDefaults (s : PrintSettings) :
    paperColumns (withDefaults s) = paperColumns s := by
  cases h : s.columns <;> simp [paperColumns, withDefaults, jsOrZ, h]

theorem paperRows_withDefaults (s : PrintSettings) :
    paperRows (withDefaults s) = paperRows s := by
  cases h : s.rows <;> simp [paperRows, withDefaults, jsOrZ, h]

theorem skipItems_withDefaults (s : PrintSettings) :
    skipItems (withDefaults s) = skipItems s := by
  cases h : s.skipItems <;> simp [skipItems, withDefaults, jsOrZ, h]

theorem itemCopies_withDefaults (s : PrintSettings) :
    itemCopies (withDefaults s) = itemCopies s := by
  cases h : s.itemCopies <;> simp [itemCopies, withDefaults, jsOrZ, h]

theorem paperSize_withDefaults (s : PrintSettings) :
    paperSize (withDefaults s) = paperSize s := by
  cases h : s.paperSize <;> simp [paperSize, withDefaults, jsOrStr, h]

theorem customPaperSize_withDefaults (s : PrintSettings) :
    customPaperSize (withDefaults s) = customPaperSize s := by
  cases h : s.customPaperSize <;> simp [customPaperSize, withDefaults, h]

theorem borderShowMode_withDefaults (s : PrintSettings) :
    borderShowMode (withDefaults s) = borderShowMode s := by
  cases h : s.borderShowMode <;> simp [borderShowMode, withDefaults, jsOrStr, h]

/-! ### Claim theorems -/

/-- C9: a settings record with absent fields behaves exactly as the same
record with every absent field filled in with its documented default
(paperSize A4, customPaperSize 210 by 297, margin 10 each, printerMargin 5
each, spacing 0, columns 3, rows 8, skipItems 0, itemCopies 1,
borderShowMode grid). -/
theorem claim_C9_defaults (s : PrintSettings) (items : List α) :
    layout s items = layout (withDefaults s) items :=
  layout_congr items (margin_withDefaults s).symm
    (printerMargin_withDefaults s).symm (spacing_withDefaults s).symm
    (paperColumns_withDefaults s).symm (paperRows_withDefaults s).symm
    (skipItems_withDefaults s).symm (itemCopies_withDefaults s).symm
    (paperSize_withDefaults s).symm (customPaperSize_withDefaults s).symm
    (borderShowMode_withDefaults s).symm

/-- C2 counterexample: with `columns = 0` and `rows = 0` the layout does not
fail; it succeeds and produces one page for a single item, contradicting the
claimed ConfigurationError with no pages. -/
theorem claim_C2_counterexample :
    (layout cfgZeroColsRows ([()] : List Unit)).toOption.map
        (fun pgs => pgs.length) = some 1 := by
  decide

/-- C2 (amended): `columns = 0` or `rows = 0` is falsy, so the zero is
silently replaced by the default (3 columns, 8 rows) and the layout behaves
exactly as with those defaults; no error is raised. -/
theorem claim_C2_amended (s : PrintSettings) (items : List α) :
    layout { s with columns := some 0, rows := some 0 } items
      = layout { s with columns := some 3, rows := some 8 } items := by
  apply layout_congr items <;>
    simp [margin, printerMargin, spacing, paperColumns, paperRows, skipItems,
      itemCopies, paperSize, customPaperSize, borderShowMode, jsOrZ, jsOrStr]

/-- C10 counterexample: with `itemCopies = -1` (a truthy value, so not
replaced by the default) every item is repeated zero times, so the single
item is dropped: no occupied cell remains, contradicting the claim that no
value of itemCopies can drop an item. -/
theorem claim_C10_counterexample :
    (layout cfgNegCopies ([()] : List Unit)).toOption.map
        (fun pgs => (flattenCells pgs).countP fun cl => cl.occupant.isSome)
      = some 0 := by
  decide

/-- C10 (amended): `itemCopies = 0` is falsy and behaves exactly as
`itemCopies = 1`, so no zero or positive value of itemCopies drops an item;
a negative itemCopies, however, repeats each item zero times and so drops
every item. -/
theorem claim_C10_amended (s : PrintSettings) (items : List α) :
    layout { s with itemCopies := some 0 } items
      = layout { s with itemCopies := some 1 } items := by
  apply layout_congr items <;>
    simp [margin, printerMargin, spacing, paperColumns, paperRows, skipItems,
      itemCopies, paperSize, customPaperSize, borderShowMode, jsOrZ, jsOrStr]

/-- C8 counterexample: the skipItems slider handler mutates the settings
record held at the received reference (its skipItems field changes from
absent to 7) and passes that same reference to setPrintSettings, instead of
producing a new settings value. -/
theorem claim_C8_counterexample :
    ((skipItemsSliderOnChange emptyHeap 0 7).1 0).skipItems = some 7
      ∧ (emptyHeap 0).skipItems = none
      ∧ (skipItemsSliderOnChange emptyHeap 0 7).2 = 0 :=
  ⟨rfl, rfl, rfl⟩

/-- C8 (amended): a settings edit mutates the received settings object in
place - the handler updates the field through the same object reference and
hands that same reference to setPrintSettings; the layout computation itself
never writes to the record. -/
theorem claim_C8_amended (h : SettingsHeap) (r : ℕ) (v : ℤ) :
    (skipItemsSliderOnChange h r v).2 = r
      ∧ (skipItemsSliderOnChange h r v).1 r
          = { h r with skipItems := some v } := by
  refine ⟨rfl, ?_⟩
  simp [skipItemsSliderOnChange]

theorem cellAt_layout {s : PrintSettings} {items : List α} {p r c : ℕ}
    {cl : Cell α} (hcl : cellAt (layout s items) p r c = some cl) :
    ∃ pw ph occ, paperWidth s = some pw ∧ paperHeight s = some ph
      ∧ cl = mkCell s pw ph r c occ := by
  cases hlay : layout s items with
  | error e =>
    rw [cellAt.eq_def, hlay] at hcl
    cases hcl
  | ok pgs =>
    obtain ⟨pw, ph, hw, hh, hskip, rfl⟩ := layout_ok_inv hlay
    rw [cellAt.eq_def, hlay] at hcl
    simp only [bind, Option.bind_eq_some] at hcl
    obtain ⟨pg, hpg, row, hrow, hcl⟩ := hcl
    rw [buildPages, List.getElem?_map, Option.map_eq_some'] at hpg
    obtain ⟨b, hb, rfl⟩ := hpg
    rw [mkPage, List.getElem?_map, List.getElem?_enum] at hrow
    simp only [Option.map_map, Option.map_eq_some', Function.comp_apply] at hrow
    obtain ⟨brow, hbrow, rfl⟩ := hrow
    rw [List.getElem?_map, List.getElem?_enum] at hcl
    simp only [Option.map_map, Option.map_eq_some', Function.comp_apply] at hcl
    obtain ⟨occ, hocc, rfl⟩ := hcl
    exact ⟨pw, ph, occ, hw, hh, rfl⟩

/-- C4 counterexample: for the spec's example settings (A4, 10 mm margins,
2 mm horizontal spacing, 3 columns) the emitted cell width is
(210-10-10-2)/3 - 2 = 182/3 = 60.666... mm, not the claimed 58.666...
(= 176/3) mm: the claim's numeric instance contradicts its own formula. -/
theorem claim_C4_counterexample :
    cellAt (layout cfgSpacingExample ([()] : List Unit)) 0 0 0
        = some (mkCell cfgSpacingExample 210 297 0 0 (some ()))
      ∧ (mkCell cfgSpacingExample 210 297 0 0 (some () : Option Unit)).width
          = (182 : ℚ)/3
      ∧ ¬ ((182 : ℚ)/3 = (176 : ℚ)/3) := by
  refine ⟨rfl, ?_, by norm_num⟩
  show itemWidth cfgSpacingExample 210 = (182 : ℚ)/3
  rw [itemWidth]
  norm_num [margin, spacing, paperColumns, jsOrZ, cfgSpacingExample]

/-- C4 (amended): every emitted cell's width and height are given exactly by
the source's formula, with the spacing subtracted both before and after the
division; for the spec's example settings this yields 182/3 = 60.666... mm
(not 58.666... mm as the claim stated). -/
theorem claim_C4_amended (s : PrintSettings) (items : List α) (pw ph : ℚ)
    (hw : paperWidth s = some pw) (hh : paperHeight s = some ph)
    (p r c : ℕ) (cl : Cell α)
    (hcl : cellAt (layout s items) p r c = some cl) :
    cl.width = (pw - (margin s).left - (margin s).right
        - (spacing s).horizontal) / (paperColumns s : ℚ)
        - (spacing s).horizontal
      ∧ cl.height = (ph - (margin s).top - (margin s).bottom
        - (spacing s).vertical) / (paperRows s : ℚ)
        - (spacing s).vertical := by
  obtain ⟨pw2, ph2, occ, hw2, hh2, rfl⟩ := cellAt_layout hcl
  rw [hw2] at hw
  rw [hh2] at hh
  injection hw with hw
  injection hh with hh
  subst hw
  subst hh
  exact ⟨rfl, rfl⟩

/-- C4 witness: the amended formula theorem applied at the spec's example
settings: the emitted cell has width 182/3 mm. -/
theorem claim_C4_amended_witness :
    (cellAt (layout cfgSpacingExample ([()] : List Unit)) 0 0 0).map
        (fun cl => cl.width) = some ((182 : ℚ)/3) := by
  have h := claim_C4_amended cfgSpacingExample ([()] : List Unit) 210 297
    rfl rfl 0 0 0 (mkCell cfgSpacingExample 210 297 0 0 (some ())) rfl
  rw [show cellAt (layout cfgSpacingExample ([()] : List Unit)) 0 0 0
      = some (mkCell cfgSpacingExample 210 297 0 0 (some ())) from rfl,
    Option.map_some', h.1]
  norm_num [margin, spacing, paperColumns, jsOrZ, cfgSpacingExample]

/-- C3 counterexample: an emitted cell with negative width.  With 110 mm
left and right margins on A4 paper the cell width is -10/3 mm < 0: the
dimension is not clamped to 0. -/
theorem claim_C3_counterexample :
    cellAt (layout cfgNegWidth ([()] : List Unit)) 0 0 0
        = some (mkCell cfgNegWidth 210 297 0 0 (some ()))
      ∧ (mkCell cfgNegWidth 210 297 0 0 (some () : Option Unit)).width < 0 := by
  refine ⟨rfl, ?_⟩
  show itemWidth cfgNegWidth 210 < 0
  rw [itemWidth]
  norm_num [margin, spacing, paperColumns, jsOrZ, cfgNegWidth]

/-- C3 (amended): whenever the paper size resolves and skipItems is
non-negative the layout completes, and every emitted cell carries the raw
formula values itemWidth and itemHeight unchanged: there is no clamping to
zero (a cell dimension can be zero or negative) and no warning is
produced. -/
theorem claim_C3_amended (s : PrintSettings) (items : List α) (pw ph : ℚ)
    (hw : paperWidth s = some pw) (hh : paperHeight s = some ph)
    (hskip : 0 ≤ skipItems s) :
    layout s items = Except.ok (buildPages s pw ph items)
      ∧ ∀ (p r c : ℕ) (cl : Cell α),
          cellAt (layout s items) p r c = some cl →
            cl.width = itemWidth s pw ∧ cl.height = itemHeight s ph := by
  constructor
  · rw [layout.eq_def, hw, hh]
    show (if skipItems s < 0 then Except.error LayoutError.negativeSkipItems
        else Except.ok (buildPages s pw ph items))
      = Except.ok (buildPages s pw ph items)
    rw [if_neg (by omega)]
  · intro p r c cl hcl
    obtain ⟨pw2, ph2, occ, hw2, hh2, rfl⟩ := cellAt_layout hcl
    rw [hw2] at hw
    rw [hh2] at hh
    injection hw with hw
    injection hh with hh
    subst hw
    subst hh
    exact ⟨rfl, rfl⟩

/-- C3 witness: with 110 mm margins the layout still completes and the
emitted cell carries the raw negative width -10/3 mm. -/
theorem claim_C3_amended_witness :
    layout cfgNegWidth ([()] : List Unit)
        = Except.ok (buildPages cfgNegWidth 210 297 [()])
      ∧ (cellAt (layout cfgNegWidth ([()] : List Unit)) 0 0 0).map
          (fun cl => cl.width) = some ((-10 : ℚ)/3) := by
  have h := claim_C3_amended cfgNegWidth ([()] : List Unit) 210 297 rfl rfl
    (by decide)
  refine ⟨h.1, ?_⟩
  have hcell := h.2 0 0 0 (mkCell cfgNegWidth 210 297 0 0 (some ())) rfl
  rw [show cellAt (layout cfgNegWidth ([()] : List Unit)) 0 0 0
      = some (mkCell cfgNegWidth 210 297 0 0 (some ())) from rfl,
    Option.map_some', hcell.1, itemWidth]
  norm_num [margin, spacing, paperColumns, jsOrZ, cfgNegWidth]

/-- C6 counterexample: a final page with fewer rows than the configured
rows count gets no bottom padding.  With rows = 2, zero margins and 5 mm
printer margins, a single item yields one page with one row; its cell is in
the last row of that page but receives padBottom 0, not the symmetric
max(printerMargin.bottom - margin.bottom, 0) = 5. -/
theorem claim_C6_counterexample :
    (layout cfgShortPage ([()] : List Unit)).toOption.map
        (fun pgs => pgs.map fun pg => pg.rows.length) = some [1]
      ∧ cellAt (layout cfgShortPage ([()] : List Unit)) 0 0 0
          = some (mkCell cfgShortPage 210 297 0 0 (some ()))
      ∧ (mkCell cfgShortPage 210 297 0 0 (some () : Option Unit)).padBottom = 0
      ∧ max ((printerMargin cfgShortPage).bottom - (margin cfgShortPage).bottom) 0
          = 5 := by
  refine ⟨by decide, rfl, ?_, ?_⟩
  · show (if ((0 : ℕ) : ℤ) = paperRows cfgShortPage - 1 then
        max ((printerMargin cfgShortPage).bottom - (margin cfgShortPage).bottom) 0
      else 0) = 0
    rw [if_neg (by decide)]
  · norm_num [printerMargin, margin, cfgShortPage]

/-- C6 (amended): per-cell edge padding depends only on the cell's position
indices: left padding for column 0, right padding for column columns-1, top
padding for row index 0 of each page, and bottom padding only for row index
rows-1 of a page - so on a final page with fewer than rows rows, no cell
receives the bottom padding. -/
theorem claim_C6_amended (s : PrintSettings) (items : List α) (p r c : ℕ)
    (cl : Cell α) (hcl : cellAt (layout s items) p r c = some cl) :
    cl.padLeft
        = (if c = 0 then max ((printerMargin s).left - (margin s).left) 0
          else 0)
      ∧ cl.padRight
        = (if (c : ℤ) = paperColumns s - 1 then
            max ((printerMargin s).right - (margin s).right) 0
          else 0)
      ∧ cl.padTop
        = (if r = 0 then max ((printerMargin s).top - (margin s).top) 0
          else 0)
      ∧ cl.padBottom
        = (if (r : ℤ) = paperRows s - 1 then
            max ((printerMargin s).bottom - (margin s).bottom) 0
          else 0) := by
  obtain ⟨pw, ph, occ, hw, hh, rfl⟩ := cellAt_layout hcl
  exact ⟨rfl, rfl, rfl, rfl⟩

/-- C6 witness: the amended padding theorem applied to the single cell of
the short-page example: it gets top padding 5 mm (row 0) but bottom padding
0 mm (its row index 0 is not rows - 1 = 1). -/
theorem claim_C6_amended_witness :
    (cellAt (layout cfgShortPage ([()] : List Unit)) 0 0 0).map
        (fun cl => (cl.padTop, cl.padBottom)) = some (5, 0) := by
  have h := claim_C6_amended cfgShortPage ([()] : List Unit) 0 0 0
    (mkCell cfgShortPage 210 297 0 0 (some ())) rfl
  rw [show cellAt (layout cfgShortPage ([()] : List Unit)) 0 0 0
      = some (mkCell cfgShortPage 210 297 0 0 (some ())) from rfl,
    Option.map_some']
  rw [show (mkCell cfgShortPage 210 297 0 0 (some () : Option Unit)).padTop
      = (5 : ℚ) from by rw [h.2.2.1, if_pos rfl]; norm_num [printerMargin, margin, cfgShortPage]]
  rw [show (mkCell cfgShortPage 210 297 0 0 (some () : Option Unit)).padBottom
      = (0 : ℚ) from by rw [h.2.2.2, if_neg (by decide)]]

/-- C7: paper-size resolution.  When the effective paperSize is neither
custom nor a key of the preset table the layout fails and returns no pages;
with paperSize custom the resolved dimensions are exactly customPaperSize;
with a known preset they are the preset's width/height pair. -/
theorem claim_C7_paper_resolution (s : PrintSettings) (items : List α) :
    (paperDimensions (paperSize s) = none → paperSize s ≠ "custom" →
        layout s items = Except.error LayoutError.unknownPaperSize)
      ∧ (paperSize s = "custom" →
          paperWidth s = some (customPaperSize s).width
            ∧ paperHeight s = some (customPaperSize s).height)
      ∧ ∀ d : SizeRec, paperDimensions (paperSize s) = some d →
          paperWidth s = some d.width ∧ paperHeight s = some d.height := by
  refine ⟨fun hnone hnc => ?_, fun hcust => ?_, fun d hd => ?_⟩
  · have hwn : paperWidth s = none := by
      rw [paperWidth, if_neg hnc, hnone]
      rfl
    rw [layout.eq_def, hwn]
  · rw [paperWidth, paperHeight, if_pos hcust, if_pos hcust]
    exact ⟨rfl, rfl⟩
  · have hnc : paperSize s ≠ "custom" := by
      intro hcu
      rw [hcu] at hd
      rw [show paperDimensions ("custom") = none from rfl] at hd
      cases hd
    rw [paperWidth, paperHeight, if_neg hnc, if_neg hnc, hd]
    exact ⟨rfl, rfl⟩

/-- C7 witness: the resolution theorem applied to an unknown preset (B5,
which fails), the custom branch (100 by 150) and the Letter preset (216 by
279). -/
theorem claim_C7_paper_resolution_witness :
    layout cfgUnknownPaper ([()] : List Unit)
        = Except.error LayoutError.unknownPaperSize
      ∧ (paperWidth cfgCustomPaper = some 100
          ∧ paperHeight cfgCustomPaper = some 150)
      ∧ (paperWidth cfgLetterPaper = some 216
          ∧ paperHeight cfgLetterPaper = some 279) :=
  ⟨(claim_C7_paper_resolution cfgUnknownPaper [()]).1 rfl (by decide),
    (claim_C7_paper_resolution cfgCustomPaper ([()] : List Unit)).2.1 rfl,
    (claim_C7_paper_resolution cfgLetterPaper ([()] : List Unit)).2.2
      ⟨216, 279⟩ rfl⟩

/-- C5: chunking.  For columns c at least 1 and rows r at least 1 an
expanded sequence of length L is split into consecutive rows whose
concatenation restores the sequence: there are exactly the ceiling of L/c
rows, every row has at most c cells and every non-final row exactly c; the
rows are likewise split into pages of r rows, with only the final page
possibly shorter. -/
theorem claim_C5_chunking (xs : List α) (c r : ℤ) (hc : 1 ≤ c) (hr : 1 ≤ r) :
    (chunkSlices xs c).flatten = xs
      ∧ (chunkSlices xs c).length = (xs.length + c.toNat - 1) / c.toNat
      ∧ (∀ row ∈ chunkSlices xs c, row.length ≤ c.toNat)
      ∧ (∀ row ∈ (chunkSlices xs c).dropLast, row.length = c.toNat)
      ∧ (chunkSlices (chunkSlices xs c) r).flatten = chunkSlices xs c
      ∧ (chunkSlices (chunkSlices xs c) r).length
          = ((chunkSlices xs c).length + r.toNat - 1) / r.toNat
      ∧ (∀ pg ∈ chunkSlices (chunkSlices xs c) r, pg.length ≤ r.toNat)
      ∧ (∀ pg ∈ (chunkSlices (chunkSlices xs c) r).dropLast,
          pg.length = r.toNat) :=
  ⟨chunkSlices_flatten hc xs, chunkSlices_length hc xs,
    fun _ h => chunkSlices_mem_length_le h,
    fun _ h => chunkSlices_dropLast_length hc h,
    chunkSlices_flatten hr _, chunkSlices_length hr _,
    fun _ h => chunkSlices_mem_length_le h,
    fun _ h => chunkSlices_dropLast_length hr h⟩

/-- C5 witness: the chunking theorem at the spec's example: 25 items with 3
columns and 8 rows give 9 rows on 2 pages; page 1 carries 8 rows holding 24
items, page 2 one row holding the 1 remaining item. -/
theorem claim_C5_chunking_witness :
    (chunkSlices (List.range 25) 3).length = 9
      ∧ (chunkSlices (chunkSlices (List.range 25) 3) 8).length = 2
      ∧ ((chunkSlices (chunkSlices (List.range 25) 3) 8).headD []).length = 8
      ∧ (((chunkSlices (chunkSlices (List.range 25) 3) 8).headD []).flatten).length
          = 24
      ∧ ((chunkSlices (chunkSlices (List.range 25) 3) 8).getLastD []).length = 1
      ∧ (((chunkSlices (chunkSlices (List.range 25) 3) 8).getLastD []).flatten)
          = [24] := by
  have h := claim_C5_chunking (List.range 25) 3 8 (by decide) (by decide)
  refine ⟨?_, ?_, by decide, by decide, by decide, by decide⟩
  · rw [h.2.1]
    decide
  · rw [h.2.2.2.2.2.1, h.2.1]
    decide

/-- C1: flattening all cells of all pages in row-major, page-sequential
order yields exactly the S leading empty placeholders followed by item 1
repeated C times, item 2 repeated C times, and so on in input order, with
no further cells (the final row is simply short rather than padded); in
particular exactly N*C cells are occupied.  S and C are the effective
skipItems and itemCopies values and the effective grid shape is positive. -/
theorem claim_C1_flatten_order (s : PrintSettings) (items : List α)
    (pgs : List (Page α)) (hok : layout s items = Except.ok pgs)
    (hcols : 1 ≤ paperColumns s) (hrows : 1 ≤ paperRows s) :
    (flattenCells pgs).map (fun cl => cl.occupant)
        = List.replicate (skipItems s).toNat none
          ++ items.flatMap
              (fun it => List.replicate (itemCopies s).toNat (some it))
      ∧ (flattenCells pgs).countP (fun cl => cl.occupant.isSome)
          = items.length * (itemCopies s).toNat := by
  obtain ⟨pw, ph, hw, hh, hskip, rfl⟩ := layout_ok_inv hok
  have hf := flattenCells_buildPages s pw ph items hcols hrows
  constructor
  · rw [hf]
    rfl
  · calc (flattenCells (buildPages s pw ph items)).countP
          (fun cl => cl.occupant.isSome)
        = ((flattenCells (buildPages s pw ph items)).map
            fun cl => cl.occupant).countP (fun o => o.isSome) := by
          rw [List.countP_map]
          rfl
      _ = (itemsIncludingSkipped (skipItems s) (itemCopies s) items).countP
            (fun o => o.isSome) := by rw [hf]
      _ = items.length * (itemCopies s).toNat := countP_isSome_expand _ _ _

/-- C1 witness: with all-default settings and two items the flattened
occupants are exactly the two items in order (no leading skips, one copy
each) and exactly two cells are occupied. -/
theorem claim_C1_flatten_order_witness :
    ((flattenCells (buildPages ({} : PrintSettings) 210 297
          ([10, 20] : List ℕ))).map fun cl => cl.occupant)
        = [some 10, some 20]
      ∧ (flattenCells (buildPages ({} : PrintSettings) 210 297
          ([10, 20] : List ℕ))).countP (fun cl => cl.occupant.isSome) = 2 := by
  have h := claim_C1_flatten_order ({} : PrintSettings) ([10, 20] : List ℕ)
    (buildPages ({} : PrintSettings) 210 297 [10, 20]) rfl (by decide)
    (by decide)
  refine ⟨?_, ?_⟩
  · rw [h.1]
    decide
  · rw [h.2]
    decide
